import Mathlib

/-!
Verification of the data-preparation and view-composition logic of the
Global Steel Plants dashboard (`dashboard.py`).

The dashboard loads a CSV of steel plants, derives a capacity column in
Mtpa, splits a composite coordinate string into latitude/longitude,
drops rows without plottable coordinates, applies three filters
(owner, country, capacity range), and computes KPI metrics and per-row
map-marker attributes (radius, color).  The embedding below models each
of those steps over lists of records; missing values (pandas NaN) are
modelled as `Option`, and rational numbers stand for the float values.
-/

namespace SteelDashboard

/-- Splits a character list on the literal separator `", "` (comma
followed by space), at every occurrence, left to right — the behaviour of
`df[COL_COORDINATES].str.split(', ')` on one cell. -/
def splitCommaSpace : List Char → List (List Char)
  | [] => [[]]
  | ',' :: ' ' :: rest => [] :: splitCommaSpace rest
  | c :: rest =>
    match splitCommaSpace rest with
    | [] => [[c]]
    | p :: ps => (c :: p) :: ps

/-- Splits a character list on a single separator character, at every
occurrence. -/
def splitOnChar (sep : Char) : List Char → List (List Char)
  | [] => [[]]
  | c :: rest =>
    if c = sep then [] :: splitOnChar sep rest
    else
      match splitOnChar sep rest with
      | [] => [[c]]
      | p :: ps => (c :: p) :: ps

/-- Numeric value of a digit string, most significant digit first. -/
def digitsToNat (cs : List Char) : ℕ :=
  cs.foldl (fun a c => 10 * a + (c.toNat - 48)) 0

/-- Parses an unsigned decimal literal (`"1500"`, `"36.7539610"`,
`"1."`, `".5"`), returning `none` on anything else.  Together with
`parseNumL` this models the numeric coercion performed by
`pd.to_numeric(..., errors='coerce')` on the plain decimal literals the
dataset carries; unparseable cells become `none` (NaN). -/
def parseUnsignedL (cs : List Char) : Option ℚ :=
  match splitOnChar '.' cs with
  | [ip] =>
    if !ip.isEmpty && ip.all Char.isDigit then some (digitsToNat ip) else none
  | [ip, fp] =>
    if (!ip.isEmpty || !fp.isEmpty) && ip.all Char.isDigit && fp.all Char.isDigit then
      some ((digitsToNat ip : ℚ) + (digitsToNat fp : ℚ) / (10 : ℚ) ^ fp.length)
    else none
  | _ => none

/-- Parses an optionally signed decimal literal; `none` (NaN) on
failure — the `errors='coerce'` behaviour. -/
def parseNumL (cs : List Char) : Option ℚ :=
  match cs with
  | '-' :: rest => (parseUnsignedL rest).map (fun q => -q)
  | '+' :: rest => parseUnsignedL rest
  | _ => parseUnsignedL cs

/-- String front end for `parseNumL`. -/
def parseNum (s : String) : Option ℚ :=
  parseNumL s.toList

/-- One row of the source CSV (`steel_plants.csv`), with the cells the
dashboard reads.  `capacityRaw` is the text of the
`Nominal crude steel capacity (ttpa)` cell, `coordinates` the composite
`"lat, lon"` cell; `region` is `none` when the `Region` cell is missing. -/
structure RawRow where
  name : String
  owner : String
  country : String
  region : Option String
  status : String
  capacityRaw : String
  coordinates : String
  startDate : String
  equipment : String
deriving DecidableEq, Repr

/-- One row of the cleaned in-memory table produced by
`load_and_clean_data`: the raw cells plus the derived columns
`Capacity_Mtpa`, `lat` and `Longitude` (still `Option`-valued as in the
dataframe; the drop step then removes coordinate-`none` rows). -/
structure CleanRow where
  name : String
  owner : String
  country : String
  region : Option String
  status : String
  capacityRaw : String
  coordinates : String
  startDate : String
  equipment : String
  capacityMtpa : Option ℚ
  lat : Option ℚ
  lon : Option ℚ
deriving DecidableEq, Repr

/-- The per-row cleaning of `load_and_clean_data` (dashboard.py lines
34–42): derive `Capacity_Mtpa = to_numeric(capacity) / 1000`, split the
coordinate cell on `", "` and parse the first two parts as floats,
coercing failures (or a missing second part) to `none`. -/
def cleanRow (r : RawRow) : CleanRow :=
  let parts := splitCommaSpace r.coordinates.toList
  { name := r.name, owner := r.owner, country := r.country,
    region := r.region, status := r.status,
    capacityRaw := r.capacityRaw, coordinates := r.coordinates,
    startDate := r.startDate, equipment := r.equipment,
    capacityMtpa := (parseNum r.capacityRaw).map (fun q => q / 1000),
    lat := (parts.get? 0).bind parseNumL,
    lon := (parts.get? 1).bind parseNumL }

/-- Number of columns of the dataframe produced by
`str.split(', ', expand=True)`: the maximum number of parts over all
rows. -/
def expandWidth (rows : List RawRow) : ℕ :=
  rows.foldl (fun m r => max m (splitCommaSpace r.coordinates.toList).length) 0

/-- `load_and_clean_data` (dashboard.py lines 30–47).  The assignment
`df[[COL_LATITUDE, COL_LONGITUDE]] = df[COL_COORDINATES].str.split(', ',
expand=True)` succeeds only when the expanded frame has exactly two
columns, i.e. when the maximum number of `", "`-separated parts over all
rows is two; otherwise pandas raises
`ValueError: Columns must be same length as key`, modelled by `.error`.
On success each row is cleaned and rows whose latitude or longitude is
`none` are dropped. -/
def loadAndCleanData (rows : List RawRow) : Except String (List CleanRow) :=
  if rows.isEmpty then .ok []
  else if expandWidth rows = 2 then
    .ok ((rows.map cleanRow).filter fun c => c.lat.isSome && c.lon.isSome)
  else .error "Columns must be same length as key"

/-- The sidebar filter selections: the owner multiselect, the country
multiselect, and the capacity range slider `(min, max)` in Mtpa. -/
structure Filters where
  selectedCompanies : List String
  selectedCountries : List String
  capacityRange : ℚ × ℚ
deriving DecidableEq, Repr

/-- The owner filter (dashboard.py lines 101–102): a Python
`if selected_companies:` guard, so an empty selection list leaves the
frame untouched, and otherwise rows whose `Owner` is in the selection
are kept. -/
def ownerFilter (sel : List String) (df : List CleanRow) : List CleanRow :=
  if sel.isEmpty then df else df.filter fun r => decide (r.owner ∈ sel)

/-- The country filter (dashboard.py lines 104–105), with the same
empty-selection guard as the owner filter. -/
def countryFilter (sel : List String) (df : List CleanRow) : List CleanRow :=
  if sel.isEmpty then df else df.filter fun r => decide (r.country ∈ sel)

/-- The capacity-range row predicate (dashboard.py lines 108–110):
`isnull(Capacity_Mtpa) OR (lo <= Capacity_Mtpa AND Capacity_Mtpa <= hi)`.
A NaN capacity passes through the `isnull` disjunct (in pandas the
comparisons themselves would be false on NaN). -/
def capPass (range : ℚ × ℚ) (r : CleanRow) : Bool :=
  match r.capacityMtpa with
  | none => true
  | some c => decide (range.1 ≤ c) && decide (c ≤ range.2)

/-- The capacity filter (dashboard.py lines 107–111). -/
def capacityFilter (range : ℚ × ℚ) (df : List CleanRow) : List CleanRow :=
  df.filter (capPass range)

/-- The complete filter chain producing `df_filtered`
(dashboard.py lines 99–111): owner filter, then country filter, then
capacity filter. -/
def applyFilters (f : Filters) (df : List CleanRow) : List CleanRow :=
  capacityFilter f.capacityRange
    (countryFilter f.selectedCountries (ownerFilter f.selectedCompanies df))

/-- Round-half-to-even to an integer, the rounding mode of numpy/pandas
`.round()`. -/
def roundHalfEven (q : ℚ) : ℤ :=
  if q - ⌊q⌋ < 1 / 2 then ⌊q⌋
  else if 1 / 2 < q - ⌊q⌋ then ⌊q⌋ + 1
  else if ⌊q⌋ % 2 = 0 then ⌊q⌋ else ⌊q⌋ + 1

/-- Pandas `.round(2)`: round-half-to-even at two decimal places. -/
def round2 (q : ℚ) : ℚ :=
  (roundHalfEven (q * 100) : ℚ) / 100

/-- The non-null `Capacity_Mtpa` values of a frame, in row order — the
values pandas aggregations (`sum`, `mean`) actually use, since they skip
NaN. -/
def capValues (df : List CleanRow) : List ℚ :=
  df.filterMap (fun r => r.capacityMtpa)

/-- The four KPI numbers (dashboard.py lines 125–128).
`avgCapacity` is `Option`-valued because `Series.mean()` of an all-NaN
column is NaN (and `NaN.round(2)` stays NaN). -/
structure Kpis where
  totalPlants : ℕ
  totalCapacity : ℚ
  avgCapacity : Option ℚ
  uniqueCountries : ℕ
deriving DecidableEq, Repr

/-- KPI computation (dashboard.py lines 125–128): row count, NaN-skipping
sum rounded to 2 decimals, NaN-skipping mean rounded to 2 decimals (the
literal `0` when the frame is empty, per the trailing
`if total_plants > 0 else 0`), and `nunique` of the country column. -/
def computeKpis (df : List CleanRow) : Kpis :=
  let caps := capValues df
  { totalPlants := df.length,
    totalCapacity := round2 caps.sum,
    avgCapacity :=
      if df.length > 0 then
        if caps.isEmpty then none else some (round2 (caps.sum / caps.length))
      else some 0,
    uniqueCountries := (df.map (fun r => r.country)).dedup.length }

/-- Pandas `Series.clip(lower, upper)`: `min(max(x, lower), upper)`. -/
def clip (lower upper x : ℚ) : ℚ :=
  min upper (max lower x)

/-- Marker radius (dashboard.py line 154):
`Capacity_Mtpa * 20000` clipped to `[5000, 80000]`. -/
def markerRadius (c : ℚ) : ℚ :=
  clip 5000 80000 (c * 20000)

/-- The fixed region → RGBA palette (dashboard.py lines 158–166).  Note
the `"Central & South America "` key carries a trailing space, exactly
as in the source. -/
def regionColors : List (String × List ℕ) :=
  [("Asia Pacific", [250, 0, 0, 160]),
   ("Europe", [0, 128, 255, 160]),
   ("Africa", [0, 200, 0, 160]),
   ("North America", [255, 165, 0, 160]),
   ("Middle East", [255, 220, 0, 160]),
   ("Central & South America ", [160, 32, 240, 160]),
   ("Eurasia", [255, 105, 180, 160])]

/-- Palette lookup: the RGBA list the dict maps a region string to, or
`none` when the string is not a key (`Series.map(dict)` yields NaN
there). -/
def lookupRegion (r : String) : Option (List ℕ) :=
  (regionColors.find? fun p => p.1 = r).map (fun p => p.2)

/-- Marker color (dashboard.py lines 169–171): the palette color of the
row's region, and the gray fallback `[128,128,128,160]` when the region
value is missing or is not a palette key (the `lambda x: x if
isinstance(x, list) else [128,128,128,160]` applied after
`Series.map(region_colors)`). -/
def markerColor (region : Option String) : List ℕ :=
  match region with
  | none => [128, 128, 128, 160]
  | some r => (lookupRegion r).getD [128, 128, 128, 160]

/-- One rendered map point: position, the capacity driving the radius,
the tooltip fields, and the `radius` and `color` columns added at
dashboard.py lines 154 and 169. -/
structure MapRow where
  name : String
  owner : String
  country : String
  region : Option String
  capacity : ℚ
  lat : ℚ
  lon : ℚ
  radius : ℚ
  color : List ℕ
deriving DecidableEq, Repr

/-- The map-layer rows (dashboard.py lines 148–171): `df_filtered` with
rows missing `lat`, `lon` or `Capacity_Mtpa` dropped, and the `radius`
and `color` columns computed per row. -/
def mapRows (df : List CleanRow) : List MapRow :=
  df.filterMap fun r =>
    match r.lat, r.lon, r.capacityMtpa with
    | some la, some lo, some c =>
      some { name := r.name, owner := r.owner, country := r.country,
             region := r.region, capacity := c, lat := la, lon := lo,
             radius := markerRadius c, color := markerColor r.region }
    | _, _, _ => none

/-- Outcome of one interaction after the filters are applied
(dashboard.py lines 115 onward): either the empty-result error message
with `st.stop()` (nothing further is computed), or the full page of
KPIs, map rows and the data table. -/
inductive RenderResult where
  | emptyError : RenderResult
  | page : Kpis → List MapRow → List CleanRow → RenderResult
deriving DecidableEq, Repr

/-- The per-interaction pipeline from the cleaned table and the filter
selections to the rendered page (dashboard.py lines 99–238): apply the
filters; if nothing matches, show the error and stop; otherwise compute
the KPIs, the map layer and the table from the filtered frame. -/
def renderDashboard (df : List CleanRow) (f : Filters) : RenderResult :=
  let dff := applyFilters f df
  if dff.isEmpty then .emptyError
  else .page (computeKpis dff) (mapRows dff) dff

/-! ### Concrete rows used to instantiate the theorems -/

/-- A raw row with well-formed capacity and coordinates. -/
def exRowGood : RawRow :=
  { name := "Annaba", owner := "AQS", country := "Algeria",
    region := some "Africa", status := "operating",
    capacityRaw := "1500", coordinates := "36.7539610, 6.2444200",
    startDate := "2017", equipment := "EAF" }

/-- A raw row whose coordinate cell does not parse. -/
def exRowBadCoords : RawRow :=
  { name := "B", owner := "OwnB", country := "Brazil",
    region := some "Central & South America ", status := "operating",
    capacityRaw := "2000", coordinates := "bad",
    startDate := "1990", equipment := "BF" }

/-- A raw row whose coordinate cell splits into three parts. -/
def exRowThreeParts : RawRow :=
  { name := "C", owner := "OwnC", country := "Chile",
    region := none, status := "operating",
    capacityRaw := "unknown", coordinates := "1, 2, 3",
    startDate := "1980", equipment := "BOF" }

/-- A cleaned row whose derived capacity is exactly 1 Mtpa. -/
def exClean1 : CleanRow :=
  { name := "P1", owner := "O1", country := "France",
    region := some "Europe", status := "operating",
    capacityRaw := "1000", coordinates := "1.0, 2.0",
    startDate := "2000", equipment := "BF",
    capacityMtpa := some 1, lat := some 1, lon := some 2 }

/-- A cleaned row with derived capacity 2 Mtpa. -/
def exClean2 : CleanRow :=
  { name := "P2", owner := "O2", country := "Germany",
    region := some "Europe", status := "operating",
    capacityRaw := "2000", coordinates := "3.0, 4.0",
    startDate := "2001", equipment := "BOF",
    capacityMtpa := some 2, lat := some 3, lon := some 4 }

/-- A cleaned row with derived capacity 3 Mtpa. -/
def exClean3 : CleanRow :=
  { name := "P3", owner := "O3", country := "France",
    region := some "Asia Pacific", status := "operating",
    capacityRaw := "3000", coordinates := "5.0, 6.0",
    startDate := "2002", equipment := "EAF",
    capacityMtpa := some 3, lat := some 5, lon := some 6 }

/-- A cleaned row whose capacity cell did not parse (`none`, i.e. NaN). -/
def exCleanNull : CleanRow :=
  { name := "P0", owner := "O0", country := "India",
    region := none, status := "operating",
    capacityRaw := "unknown", coordinates := "7.0, 8.0",
    startDate := "2003", equipment := "BF",
    capacityMtpa := none, lat := some 7, lon := some 8 }

/-- The four-row frame of the KPI example: derived capacities
`[1, 2, NaN, 3]` and three distinct countries. -/
def exKpiDf : List CleanRow :=
  [exClean1, exClean2, exCleanNull, exClean3]

/-- A filter selection matching no row of the example frames: the owner
multiselect names an owner that does not occur. -/
def exFilterNone : Filters :=
  { selectedCompanies := ["NoSuchOwner"], selectedCountries := [],
    capacityRange := (0, 100) }

/-- The map point produced from `exClean1`. -/
def exMapRow : MapRow :=
  { name := "P1", owner := "O1", country := "France",
    region := some "Europe", capacity := 1, lat := 1, lon := 2,
    radius := markerRadius 1, color := markerColor (some "Europe") }

/-! ### Helper lemmas about the cleaning stage -/

/-- The initial accumulator bounds the `foldl max` computing the
expanded width. -/
theorem expandWidth_init_le (rows : List RawRow) (a : ℕ) :
    a ≤ rows.foldl (fun m r => max m (splitCommaSpace r.coordinates.toList).length) a := by
  induction rows generalizing a with
  | nil => exact le_refl a
  | cons x xs ih =>
    exact le_trans (le_max_left a _) (ih (max a _))

/-- Every row's part count is bounded by the expanded width. -/
theorem width_le_expandWidth (rows : List RawRow) (r : RawRow) (h : r ∈ rows) :
    (splitCommaSpace r.coordinates.toList).length ≤ expandWidth rows := by
  unfold expandWidth
  generalize 0 = a
  induction rows generalizing a with
  | nil => cases h
  | cons x xs ih =>
    rw [List.foldl_cons]
    rcases List.mem_cons.mp h with rfl | hm
    · exact le_trans (le_max_right a _) (expandWidth_init_le xs _)
    · exact ih hm (max a _)

/-- Whenever `load_and_clean_data` succeeds, the cleaned table is the
per-row cleaning of the input followed by the coordinate drop. -/
theorem load_ok_eq (rows : List RawRow) (cleaned : List CleanRow)
    (h : loadAndCleanData rows = .ok cleaned) :
    cleaned = (rows.map cleanRow).filter fun c => c.lat.isSome && c.lon.isSome := by
  unfold loadAndCleanData at h
  split at h
  · next he =>
    obtain rfl : rows = [] := by simpa using he
    injection h with h
    simp [h.symm]
  · split at h
    · injection h with h
      exact h.symm
    · cases h

/-! ### Claim theorems -/

/-- C1: every row of the cleaned table produced by `load_and_clean_data`
comes from an input row, and its derived capacity `Capacity_Mtpa` is the
numeric parse of the raw capacity cell divided by 1000 when the cell
parses, and `none` (NaN) when it does not; e.g. raw `"1500"` yields
derived `3/2 = 1.5`. -/
theorem C1_capacity_derived (rows : List RawRow) (cleaned : List CleanRow)
    (h : loadAndCleanData rows = .ok cleaned) :
    (∀ c ∈ cleaned, ∃ r ∈ rows, c = cleanRow r ∧
        c.capacityMtpa = (parseNum r.capacityRaw).map (fun q => q / 1000)) ∧
    (parseNum "1500").map (fun q => q / 1000) = some (3 / 2) := by
  refine ⟨?_, ?_⟩
  swap
  · have h1 : parseNum "1500" = some ((1500 : ℕ) : ℚ) := rfl
    rw [h1, Option.map_some']
    norm_num
  intro c hc
  rw [load_ok_eq rows cleaned h, List.mem_filter] at hc
  obtain ⟨hc1, -⟩ := hc
  rw [List.mem_map] at hc1
  obtain ⟨r, hr, rfl⟩ := hc1
  exact ⟨r, hr, rfl, rfl⟩

/-- Witness for C1 at a concrete one-row input. -/
theorem C1_capacity_derived_witness :
    (∀ c ∈ [cleanRow exRowGood], ∃ r ∈ [exRowGood], c = cleanRow r ∧
        c.capacityMtpa = (parseNum r.capacityRaw).map (fun q => q / 1000)) ∧
    (parseNum "1500").map (fun q => q / 1000) = some (3 / 2) :=
  C1_capacity_derived [exRowGood] [cleanRow exRowGood] (by rfl)

/-- C2: every row retained in the cleaned table has non-null latitude
and longitude, and any input row for which either coordinate fails to
parse is absent from the cleaned table. -/
theorem C2_rows_have_coords (rows : List RawRow) (cleaned : List CleanRow)
    (h : loadAndCleanData rows = .ok cleaned) :
    (∀ c ∈ cleaned, c.lat.isSome ∧ c.lon.isSome) ∧
    (∀ r ∈ rows, ((cleanRow r).lat = none ∨ (cleanRow r).lon = none) →
      cleanRow r ∉ cleaned) := by
  rw [load_ok_eq rows cleaned h]
  constructor
  · intro c hc
    rw [List.mem_filter] at hc
    obtain ⟨-, hp⟩ := hc
    simp only [Bool.and_eq_true] at hp
    exact ⟨hp.1, hp.2⟩
  · intro r _ hnone hmem
    rw [List.mem_filter] at hmem
    obtain ⟨-, hp⟩ := hmem
    simp only [Bool.and_eq_true] at hp
    rcases hnone with h1 | h1
    · rw [h1] at hp
      simp at hp
    · rw [h1] at hp
      simp at hp

/-- Witness for C2: the row with coordinate cell `"bad"` is dropped,
the retained row has both coordinates. -/
theorem C2_rows_have_coords_witness :
    (∀ c ∈ [cleanRow exRowGood], c.lat.isSome ∧ c.lon.isSome) ∧
    (∀ r ∈ [exRowGood, exRowBadCoords],
      ((cleanRow r).lat = none ∨ (cleanRow r).lon = none) →
      cleanRow r ∉ [cleanRow exRowGood]) :=
  C2_rows_have_coords [exRowGood, exRowBadCoords] [cleanRow exRowGood] (by rfl)

/-- C3 counterexample: a single input row whose coordinate cell
`"1, 2, 3"` splits into three parts makes `load_and_clean_data` raise
(the two-column assignment of a three-column expansion), so a malformed
coordinate string is not always converted locally to absent values. -/
theorem C3_split_counterexample :
    loadAndCleanData [exRowThreeParts] =
      .error "Columns must be same length as key" := rfl

/-- C3 amended: the loader splits each coordinate cell on every
occurrence of `", "`; when the maximum part count over the input is
exactly two the load succeeds and each retained row's latitude and
longitude are the float parses of the first and second part (null on
failure, such rows then dropped), but an input row splitting into more
than two parts makes the load raise an error. -/
theorem C3_split_amended (rows : List RawRow) :
    (expandWidth rows = 2 →
      ∃ cleaned, loadAndCleanData rows = .ok cleaned ∧
        ∀ c ∈ cleaned,
          c.lat = ((splitCommaSpace c.coordinates.toList).get? 0).bind parseNumL ∧
          c.lon = ((splitCommaSpace c.coordinates.toList).get? 1).bind parseNumL) ∧
    (∀ r ∈ rows, 2 < (splitCommaSpace r.coordinates.toList).length →
      loadAndCleanData rows = .error "Columns must be same length as key") := by
  constructor
  · intro hw
    by_cases he : rows.isEmpty = true
    · exact ⟨[], by simp [loadAndCleanData, he], by simp⟩
    · refine ⟨(rows.map cleanRow).filter fun c => c.lat.isSome && c.lon.isSome,
        ?_, ?_⟩
      · unfold loadAndCleanData
        rw [if_neg he, if_pos hw]
      · intro c hc
        rw [List.mem_filter] at hc
        obtain ⟨hc1, -⟩ := hc
        rw [List.mem_map] at hc1
        obtain ⟨r, hr, rfl⟩ := hc1
        exact ⟨rfl, rfl⟩
  · intro r hr hlen
    have h1 : (splitCommaSpace r.coordinates.toList).length ≤ expandWidth rows :=
      width_le_expandWidth rows r hr
    have hw : ¬ expandWidth rows = 2 := by omega
    have he : rows.isEmpty = false := by
      cases rows with
      | nil => cases hr
      | cons x xs => rfl
    unfold loadAndCleanData
    rw [if_neg (by simp [he]), if_neg hw]

/-- Witness for C3 amended: a two-row input of maximal part count two
loads successfully with the per-part parses, and the three-part row
makes the load raise. -/
theorem C3_split_amended_witness :
    (∃ cleaned, loadAndCleanData [exRowGood, exRowBadCoords] = .ok cleaned ∧
      ∀ c ∈ cleaned,
        c.lat = ((splitCommaSpace c.coordinates.toList).get? 0).bind parseNumL ∧
        c.lon = ((splitCommaSpace c.coordinates.toList).get? 1).bind parseNumL) ∧
    loadAndCleanData [exRowThreeParts] =
      .error "Columns must be same length as key" :=
  ⟨(C3_split_amended [exRowGood, exRowBadCoords]).1 (by rfl),
   (C3_split_amended [exRowThreeParts]).2 exRowThreeParts (by simp) (by decide)⟩

/-- C4: the capacity filter keeps a row iff its derived capacity is
null or lies in the inclusive range `[min, max]`; null-capacity rows
are never excluded. -/
theorem C4_capacity_filter (range : ℚ × ℚ) (df : List CleanRow) (r : CleanRow) :
    r ∈ capacityFilter range df ↔
      r ∈ df ∧ (r.capacityMtpa = none ∨
        ∃ c, r.capacityMtpa = some c ∧ range.1 ≤ c ∧ c ≤ range.2) := by
  unfold capacityFilter
  rw [List.mem_filter]
  apply and_congr_right
  intro _
  cases hc : r.capacityMtpa with
  | none => simp [capPass, hc]
  | some c => simp [capPass, hc]

/-- Witness for C4: a row exactly at the lower bound and a row exactly
at the upper bound are kept; a null-capacity row is kept under bounds
that exclude every number it could have had. -/
theorem C4_capacity_filter_witness :
    exClean1 ∈ capacityFilter (1, 3) [exClean1, exCleanNull] ∧
    exClean3 ∈ capacityFilter (1, 3) [exClean3] ∧
    exCleanNull ∈ capacityFilter (100, 200) [exCleanNull] :=
  ⟨(C4_capacity_filter (1, 3) [exClean1, exCleanNull] exClean1).mpr
      ⟨by simp, Or.inr ⟨1, rfl, by norm_num, by norm_num⟩⟩,
   (C4_capacity_filter (1, 3) [exClean3] exClean3).mpr
      ⟨by simp, Or.inr ⟨3, rfl, by norm_num, by norm_num⟩⟩,
   (C4_capacity_filter (100, 200) [exCleanNull] exCleanNull).mpr
      ⟨by simp, Or.inl rfl⟩⟩

/-- C5: the owner filter keeps a row iff the selection is empty (no
restriction) or the row's owner is selected, and the country filter has
the same semantics. -/
theorem C5_owner_country_filter (selO selC : List String) (df : List CleanRow)
    (r : CleanRow) :
    (r ∈ ownerFilter selO df ↔ r ∈ df ∧ (selO = [] ∨ r.owner ∈ selO)) ∧
    (r ∈ countryFilter selC df ↔ r ∈ df ∧ (selC = [] ∨ r.country ∈ selC)) := by
  constructor
  · unfold ownerFilter
    by_cases h : selO.isEmpty = true
    · obtain rfl : selO = [] := by simpa using h
      simp
    · have h' : ¬ selO = [] := by simpa using h
      rw [if_neg h, List.mem_filter]
      simp [h']
  · unfold countryFilter
    by_cases h : selC.isEmpty = true
    · obtain rfl : selC = [] := by simpa using h
      simp
    · have h' : ¬ selC = [] := by simpa using h
      rw [if_neg h, List.mem_filter]
      simp [h']

/-- Witness for C5: with an empty owner selection every row passes the
owner filter, and a row whose country is selected passes the country
filter. -/
theorem C5_owner_country_filter_witness :
    exClean1 ∈ ownerFilter [] [exClean1, exClean2] ∧
    exClean2 ∈ countryFilter ["Germany"] [exClean1, exClean2] :=
  ⟨((C5_owner_country_filter [] ["Germany"] [exClean1, exClean2] exClean1).1).mpr
      ⟨by simp, Or.inl rfl⟩,
   ((C5_owner_country_filter [] ["Germany"] [exClean1, exClean2] exClean2).2).mpr
      ⟨by simp, Or.inr (by simp [exClean2])⟩⟩

/-- C6: the KPI block computes the row count, the NaN-skipping sum and
mean of the derived capacities rounded to two decimals (the literal `0`
when the row count is zero), and the number of distinct countries; on
derived capacities `[1, 2, NaN, 3]` it yields `total_capacity = 6`,
`average_capacity = 2`, `total_plants = 4`. -/
theorem C6_kpis (df : List CleanRow) :
    (computeKpis df).totalPlants = df.length ∧
    (computeKpis df).totalCapacity =
      round2 (df.filterMap fun r => r.capacityMtpa).sum ∧
    ((df.filterMap fun r => r.capacityMtpa) ≠ [] →
      (computeKpis df).avgCapacity =
        some (round2 ((df.filterMap fun r => r.capacityMtpa).sum /
          (df.filterMap fun r => r.capacityMtpa).length))) ∧
    (df.length = 0 → (computeKpis df).avgCapacity = some 0) ∧
    (computeKpis df).uniqueCountries =
      (df.map fun r => r.country).dedup.length ∧
    computeKpis exKpiDf =
      { totalPlants := 4, totalCapacity := 6, avgCapacity := some 2,
        uniqueCountries := 3 } := by
  refine ⟨rfl, rfl, ?_, ?_, rfl, ?_⟩
  · intro hne
    have hdf : df ≠ [] := by
      intro h
      rw [h] at hne
      exact hne rfl
    have hlen : 0 < df.length := List.length_pos.mpr hdf
    have h2 : ¬ ((capValues df).isEmpty = true) := by
      simpa [capValues] using hne
    simp only [computeKpis]
    rw [if_pos hlen, if_neg h2]
    rfl
  · intro h0
    simp only [computeKpis]
    rw [if_neg (by omega)]
  · have h6 : round2 6 = 6 := by
      unfold round2 roundHalfEven
      norm_num
    have h2r : round2 2 = 2 := by
      unfold round2 roundHalfEven
      norm_num
    have hcv : capValues exKpiDf = [1, 2, 3] := rfl
    have hlen4 : exKpiDf.length = 4 := rfl
    have hded : ((exKpiDf.map fun r => r.country).dedup).length = 3 := by decide
    simp only [computeKpis, hcv, hlen4, hded]
    norm_num [Kpis.mk.injEq, h6, h2r]

/-- Witness for C6: the mean formula evaluated on the four-row example
frame, and the literal `0` average on a zero-row frame. -/
theorem C6_kpis_witness :
    (computeKpis exKpiDf).avgCapacity =
      some (round2 ((exKpiDf.filterMap fun r => r.capacityMtpa).sum /
        (exKpiDf.filterMap fun r => r.capacityMtpa).length)) ∧
    (computeKpis []).avgCapacity = some 0 :=
  ⟨(C6_kpis exKpiDf).2.2.1 (by decide), (C6_kpis []).2.2.2.1 rfl⟩

/-- C7: when the filter combination matches zero rows, the interaction
produces the no-matching-rows error and stops — no KPI block, map or
table page is produced. -/
theorem C7_empty_result_stops (df : List CleanRow) (f : Filters)
    (h : applyFilters f df = []) :
    renderDashboard df f = .emptyError ∧
    ∀ k m t, renderDashboard df f ≠ .page k m t := by
  constructor
  · simp [renderDashboard, h]
  · intro k m t
    simp [renderDashboard, h]

/-- Witness for C7: selecting an owner that matches no row yields the
error-and-stop outcome. -/
theorem C7_empty_result_stops_witness :
    renderDashboard [exClean1] exFilterNone = .emptyError ∧
    ∀ k m t, renderDashboard [exClean1] exFilterNone ≠ .page k m t :=
  C7_empty_result_stops [exClean1] exFilterNone (by decide)

/-- C8: every rendered map point's radius is its capacity times 20000
clamped to `[5000, 80000]`; capacity `0.0001` hits the floor `5000`,
capacity `10` the ceiling `80000`, and capacity `1` gives `20000`. -/
theorem C8_marker_radius (df : List CleanRow) (m : MapRow)
    (h : m ∈ mapRows df) :
    m.radius = max 5000 (min 80000 (m.capacity * 20000)) ∧
    markerRadius (1 / 10000) = 5000 ∧
    markerRadius 10 = 80000 ∧
    markerRadius 1 = 20000 := by
  refine ⟨?_, by norm_num [markerRadius, clip, min_def, max_def],
    by norm_num [markerRadius, clip, min_def, max_def],
    by norm_num [markerRadius, clip, min_def, max_def]⟩
  rw [mapRows, List.mem_filterMap] at h
  obtain ⟨r, -, hm⟩ := h
  obtain ⟨na, ow, co, re, st, cr, cd, sd, eqp, cap, lat, lon⟩ := r
  cases lat with
  | none => cases cap <;> cases lon <;> cases hm
  | some la =>
    cases lon with
    | none => cases cap <;> cases hm
    | some lo =>
      cases cap with
      | none => cases hm
      | some c =>
        injection hm with hm
        subst hm
        show markerRadius c = max 5000 (min 80000 (c * 20000))
        rw [markerRadius, clip, min_max_distrib_left,
          show min (80000 : ℚ) 5000 = 5000 by norm_num [min_def]]

/-- Witness for C8 at the concrete map point of `exClean1`. -/
theorem C8_marker_radius_witness :
    exMapRow.radius = max 5000 (min 80000 (exMapRow.capacity * 20000)) ∧
    markerRadius (1 / 10000) = 5000 ∧
    markerRadius 10 = 80000 ∧
    markerRadius 1 = 20000 :=
  C8_marker_radius [exClean1] exMapRow (List.mem_singleton.mpr rfl)

/-- C9: every rendered map point's color is the palette color of its
region when the region is a palette key, and the gray fallback
`[128,128,128,160]` when the region is absent or not a key. -/
theorem C9_marker_color (df : List CleanRow) (m : MapRow)
    (h : m ∈ mapRows df) :
    m.color = markerColor m.region ∧
    markerColor none = [128, 128, 128, 160] ∧
    (∀ reg, lookupRegion reg = none →
      markerColor (some reg) = [128, 128, 128, 160]) ∧
    (∀ p ∈ regionColors, markerColor (some p.1) = p.2) := by
  refine ⟨?_, rfl, ?_, by decide⟩
  · rw [mapRows, List.mem_filterMap] at h
    obtain ⟨r, -, hm⟩ := h
    obtain ⟨na, ow, co, re, st, cr, cd, sd, eqp, cap, lat, lon⟩ := r
    cases lat with
    | none => cases cap <;> cases lon <;> cases hm
    | some la =>
      cases lon with
      | none => cases cap <;> cases hm
      | some lo =>
        cases cap with
        | none => cases hm
        | some c =>
          injection hm with hm
          subst hm
          rfl
  · intro reg hl
    simp [markerColor, hl]

/-- Witness for C9 at the concrete map point of `exClean1`. -/
theorem C9_marker_color_witness :
    exMapRow.color = markerColor exMapRow.region ∧
    markerColor none = [128, 128, 128, 160] ∧
    (∀ reg, lookupRegion reg = none →
      markerColor (some reg) = [128, 128, 128, 160]) ∧
    (∀ p ∈ regionColors, markerColor (some p.1) = p.2) :=
  C9_marker_color [exClean1] exMapRow (List.mem_singleton.mpr rfl)

/-- C10: the palette key for Central & South America carries a trailing
space, so the exact string without the trailing space is not a key and
receives the gray fallback, while the trailing-space string receives
the purple palette color. -/
theorem C10_palette_trailing_space :
    ("Central & South America ", [160, 32, 240, 160]) ∈ regionColors ∧
    lookupRegion "Central & South America" = none ∧
    markerColor (some "Central & South America") = [128, 128, 128, 160] ∧
    markerColor (some "Central & South America ") = [160, 32, 240, 160] := by
  decide

end SteelDashboard
